import Mathlib

/-!
Verification development for the resilient LLM gateway and the
retrieval-grounded answer pipeline (`app/services/llm_service.py` and
`app/services/rag_engine.py`).

Conventions of the embedding:
* Wall-clock timestamps are natural numbers (seconds); `datetime.now()`
  becomes an explicit parameter at every call site that reads the clock.
* Python floats (similarity scores, retry delays) are embedded as `ℚ`.
* Python dicts used as string-keyed metadata maps become association lists
  with first-match lookup and in-place update.
* A Python function that can raise is embedded as a function into `Except`;
  a `try/except` becomes a `match` on that value.
-/

namespace AgriCivic

/-! ### Circuit breaker (LLMService.circuit_breaker_state and friends)

The per-provider dict `{"failures": _, "last_failure": _, "state": _}` from
`LLMService.__init__`, with `state ∈ {"closed", "open", "half-open"}`. -/

inductive CBState where
  | closed
  | opened
  | halfOpen
deriving DecidableEq, Repr

/-- Per-provider circuit-breaker record: `failures` counter, optional
timestamp of the last failure (seconds), and the state tag. -/
structure ProviderCircuit where
  failures : Nat
  lastFailure : Option Nat
  state : CBState
deriving DecidableEq, Repr

/-- Initial entry created in `LLMService.__init__`:
`{"failures": 0, "last_failure": None, "state": "closed"}`. -/
def initCircuit : ProviderCircuit :=
  { failures := 0, lastFailure := none, state := .closed }

/-- Cooldown used by `_is_circuit_breaker_open`: `timedelta(minutes=5)`,
in seconds. -/
def cooldownSeconds : Nat := 300

/-- Embedding of `LLMService._is_circuit_breaker_open`.  Returns the boolean
answer together with the (possibly mutated) circuit record: an open circuit
whose last failure lies strictly more than five minutes in the past is
switched to half-open and reported as not open. -/
def isCircuitBreakerOpen (now : Nat) (s : ProviderCircuit) : Bool × ProviderCircuit :=
  match s.state with
  | .opened =>
    match s.lastFailure with
    | some t =>
      if cooldownSeconds < now - t then
        (false, { s with state := .halfOpen })
      else
        (true, s)
    | none => (true, s)
  | _ => (false, s)

/-- Embedding of `LLMService._record_success`: reset the failure count,
close the circuit, and clear the last-failure timestamp. -/
def recordSuccess (_s : ProviderCircuit) : ProviderCircuit :=
  { failures := 0, lastFailure := none, state := .closed }

/-- Embedding of `LLMService._record_failure`: increment the failure count,
stamp the failure time, and open the circuit once the count reaches 3. -/
def recordFailure (now : Nat) (s : ProviderCircuit) : ProviderCircuit :=
  let f := s.failures + 1
  { failures := f
    lastFailure := some now
    state := if 3 ≤ f then .opened else s.state }

/-- Circuit records reachable from the initial record through the three
operations of the service. -/
inductive ReachableCircuit : ProviderCircuit → Prop where
  | init : ReachableCircuit initCircuit
  | success {s} : ReachableCircuit s → ReachableCircuit (recordSuccess s)
  | failure {s} (t : Nat) : ReachableCircuit s → ReachableCircuit (recordFailure t s)
  | check {s} (now : Nat) : ReachableCircuit s →
      ReachableCircuit (isCircuitBreakerOpen now s).2

/-- In every reachable circuit record, a non-closed state certifies at least
three recorded consecutive failures. -/
theorem reachable_notClosed_three_failures (s : ProviderCircuit)
    (hr : ReachableCircuit s) (hs : s.state ≠ .closed) : 3 ≤ s.failures := by
  induction hr with
  | init => exact absurd rfl hs
  | success _ _ => exact absurd rfl hs
  | failure t _ ih =>
    rename_i s' _
    by_cases h3 : 3 ≤ s'.failures + 1
    · simp [recordFailure, h3]
    · simp only [recordFailure, if_neg h3] at hs ⊢
      exact le_trans (ih hs) (Nat.le_succ _)
  | check now _ ih =>
    rename_i s' _
    obtain ⟨f, lf, st⟩ := s'
    cases st with
    | closed => simp [isCircuitBreakerOpen] at hs
    | halfOpen => simpa [isCircuitBreakerOpen] using ih (by simp)
    | opened =>
      have h3 : 3 ≤ f := ih (by simp)
      cases lf with
      | none => simpa [isCircuitBreakerOpen] using h3
      | some t =>
        by_cases hc : cooldownSeconds < now - t <;>
          simpa [isCircuitBreakerOpen, hc] using h3

/-! ### Retry with exponential backoff (LLMService._generate_with_retry)

The behaviour of the wrapped client is abstracted as a function from the
0-indexed attempt number to the outcome of that attempt; the exceptions of
`llm_service.py` become the three failing constructors. -/

/-- Outcome of a single `client.generate_response` call: a successful
`LLMResponse` content, or one of `LLMTimeoutError`, `LLMRateLimitError`,
`LLMProviderError`. -/
inductive AttemptOutcome where
  | ok (content : String)
  | timeoutErr
  | rateLimitErr
  | providerErr
deriving DecidableEq, Repr

/-- Error raised out of the gateway, mirroring the `LLMError` hierarchy. -/
inductive GenError where
  | timeout
  | rateLimit
  | provider
  | allFailed
deriving DecidableEq, Repr

/-- Whether an outcome is one of the two transient (retry-eligible)
exceptions. -/
def transientOutcome : AttemptOutcome → Bool
  | .timeoutErr => true
  | .rateLimitErr => true
  | _ => false

/-- Observable trace of one `_generate_with_retry` invocation: the returned
value or raised error, how many attempts were made, the `asyncio.sleep`
delays that were inserted (attempt index paired with the wait time), and how
often `_record_failure` / `_record_success` were invoked. -/
structure RetryTrace where
  result : Except GenError String
  attempts : Nat
  delays : List (Nat × ℚ)
  failureRecorded : Nat
  successRecorded : Nat
deriving Repr

/-- Embedding of the `for attempt in range(max_retries + 1)` loop body of
`LLMService._generate_with_retry`; `attempt` is the current loop index and
`remaining` the number of loop iterations left. -/
def retryFrom (retryDelay : ℚ) (maxRetries : Nat) (outcomes : Nat → AttemptOutcome) :
    Nat → Nat → RetryTrace
  | _, 0 =>
    { result := .error .allFailed, attempts := 0, delays := []
      failureRecorded := 0, successRecorded := 0 }
  | attempt, remaining + 1 =>
    match outcomes attempt with
    | .ok c =>
      { result := .ok c, attempts := 1, delays := []
        failureRecorded := 0, successRecorded := 1 }
    | .timeoutErr =>
      if attempt = maxRetries then
        { result := .error .timeout, attempts := 1, delays := []
          failureRecorded := 1, successRecorded := 0 }
      else
        let t := retryFrom retryDelay maxRetries outcomes (attempt + 1) remaining
        { result := t.result, attempts := t.attempts + 1
          delays := (attempt, retryDelay * 2 ^ attempt) :: t.delays
          failureRecorded := t.failureRecorded, successRecorded := t.successRecorded }
    | .rateLimitErr =>
      if attempt = maxRetries then
        { result := .error .rateLimit, attempts := 1, delays := []
          failureRecorded := 1, successRecorded := 0 }
      else
        let t := retryFrom retryDelay maxRetries outcomes (attempt + 1) remaining
        { result := t.result, attempts := t.attempts + 1
          delays := (attempt, retryDelay * 2 ^ attempt) :: t.delays
          failureRecorded := t.failureRecorded, successRecorded := t.successRecorded }
    | .providerErr =>
      { result := .error .provider, attempts := 1, delays := []
        failureRecorded := 1, successRecorded := 0 }

/-- Embedding of `LLMService._generate_with_retry` for one provider client:
the loop runs over `range(max_retries + 1)`. -/
def generateWithRetry (retryDelay : ℚ) (maxRetries : Nat)
    (outcomes : Nat → AttemptOutcome) : RetryTrace :=
  retryFrom retryDelay maxRetries outcomes 0 (maxRetries + 1)

/-! ### Provider ordering (LLMService.generate_response) -/

/-- The two configuration values consulted for fallback ordering. -/
structure GatewayConfig where
  primaryProvider : String
  fallbackProvider : String
deriving DecidableEq, Repr

/-- Order-preserving de-duplication keeping the first occurrence of each
element, as `list(dict.fromkeys(provider_order))` does. -/
def dedupFirstAux (seen : List String) : List String → List String
  | [] => []
  | x :: xs =>
    if seen.contains x then dedupFirstAux seen xs
    else x :: dedupFirstAux (x :: seen) xs

/-- De-duplicated list, first occurrences kept, order preserved. -/
def dedupKeepFirst (l : List String) : List String := dedupFirstAux [] l

/-- Embedding of the provider-order computation in
`LLMService.generate_response`: an explicitly requested provider that is
truthy (non-empty) and registered in `self.clients` yields a singleton
order; anything else yields the de-duplicated `[primary, fallback]` pair.
The circuit-breaker state is not consulted here. -/
def providerOrder (clients : List String) (preferred : Option String)
    (cfg : GatewayConfig) : List String :=
  match preferred with
  | some p =>
    if p ≠ "" && clients.contains p then [p]
    else dedupKeepFirst [cfg.primaryProvider, cfg.fallbackProvider]
  | none => dedupKeepFirst [cfg.primaryProvider, cfg.fallbackProvider]

/-- The providers actually attempted by the loop of
`LLMService.generate_response`: a candidate is skipped when it is not
registered or when `_is_circuit_breaker_open` answers true for it (the
boolean answer is abstracted as a predicate snapshot). -/
def attemptedCandidates (clients : List String) (circuitOpen : String → Bool)
    (preferred : Option String) (cfg : GatewayConfig) : List String :=
  (providerOrder clients preferred cfg).filter
    (fun p => clients.contains p && !circuitOpen p)

/-- Provider ordering as the specification words it, for comparison with
`providerOrder`: "if `preferredProvider` is given, available, and its
circuit is not Open, use it exclusively. Otherwise build an ordered,
de-duplicated list `[primaryProvider, fallbackProvider]`". -/
def providerOrderSpec (clients : List String) (circuitOpen : String → Bool)
    (preferred : Option String) (cfg : GatewayConfig) : List String :=
  match preferred with
  | some p =>
    if p ≠ "" && clients.contains p && !circuitOpen p then [p]
    else dedupKeepFirst [cfg.primaryProvider, cfg.fallbackProvider]
  | none => dedupKeepFirst [cfg.primaryProvider, cfg.fallbackProvider]

/-! ### Shared string and dict helpers for the RAG engine

Python string operations used by `rag_engine.py` are embedded through the
character list of a `String`; `str.lower` and slicing act per character
(ASCII case folding, which covers every keyword the engine tests for). -/

/-- First-match lookup in a string-keyed metadata dict, `d.get(k)`. -/
def mlookup (m : List (String × String)) (k : String) : Option String :=
  (m.find? (fun p => p.1 == k)).map (fun p => p.2)

/-- Dict assignment `d[k] = v`: replace the value in place if the key
exists, otherwise append the binding. -/
def msetKey : List (String × String) → String → String → List (String × String)
  | [], k, v => [(k, v)]
  | (k', v') :: rest, k, v =>
    if k' == k then (k, v) :: rest else (k', v') :: msetKey rest k v

/-- Does the pattern occur at the head of the character list? -/
def listLeads : List Char → List Char → Bool
  | [], _ => true
  | _ :: _, [] => false
  | a :: as, b :: bs => a == b && listLeads as bs

/-- Does the pattern occur anywhere in the character list? -/
def listInside (pat : List Char) : List Char → Bool
  | [] => listLeads pat []
  | c :: rest => listLeads pat (c :: rest) || listInside pat rest

/-- Python's `needle in haystack` on strings (non-empty needle). -/
def strContains (haystack needle : String) : Bool :=
  listInside needle.data haystack.data

/-- Python `s.lower()` (per-character case folding). -/
def strLower (s : String) : String := String.mk (s.data.map Char.toLower)

/-- Python slice `s[:n]` (per-character). -/
def strTake (s : String) (n : Nat) : String := String.mk (s.data.take n)

/-- Truthiness of `metadata.get(k)`: a missing key and an empty string are
both falsy. -/
def truthy : Option String → Bool
  | none => false
  | some s => !(s == "")

/-! ### Retrieved documents as passed to the grounder

One dict of `retrieved_documents`, with the keys `rag_engine.py` reads:
`doc.get("id", ...)`, `doc.get("content", "")`, `doc.get("metadata", {})`,
`doc.get("similarity_score", 0)`.  A missing `id` key is `none`; the other
defaults are folded into the field values. -/
structure Doc where
  id : Option String
  content : String
  metadata : List (String × String)
  similarityScore : ℚ
deriving DecidableEq, Repr

/-! ### Context construction (RAGEngine._prepare_context) -/

/-- `self.max_context_length` set in `RAGEngine.__init__`. -/
def maxContextLength : Nat := 4000

/-- The `doc_context` string rendered for the `i`-th document (0-indexed):
`[Source i+1]` tag, provenance line with optional crop and category, then
the content and a blank line. -/
def docContext (i : Nat) (d : Doc) : String :=
  let sourceRef := "[Source " ++ toString (i + 1) ++ "]"
  let s0 := "Source: " ++ ((mlookup d.metadata "source").getD "Unknown")
  let s1 := if truthy (mlookup d.metadata "crop") then
      s0 ++ ", Crop: " ++ ((mlookup d.metadata "crop").getD "")
    else s0
  let s2 := if truthy (mlookup d.metadata "category") then
      s1 ++ ", Category: " ++ ((mlookup d.metadata "category").getD "")
    else s1
  sourceRef ++ " " ++ s2 ++ "\n" ++ d.content ++ "\n\n"

/-- The accumulation loop of `_prepare_context`: documents are consumed in
order with their enumeration index; once appending the next rendered
document would push `current_length` beyond the budget, the loop breaks and
every later document is dropped. -/
def prepareContextParts (budget : Nat) : List (Nat × Doc) → Nat → List String
  | [], _ => []
  | (i, d) :: rest, currentLength =>
    let dc := docContext i d
    if budget < currentLength + dc.length then []
    else dc :: prepareContextParts budget rest (currentLength + dc.length)

/-- Python `"".join(parts)`. -/
def joinParts : List String → String
  | [] => ""
  | s :: rest => s ++ joinParts rest

/-- Embedding of `RAGEngine._prepare_context`. -/
def prepareContext (docs : List Doc) : String :=
  joinParts (prepareContextParts maxContextLength docs.enum 0)

/-! ### Source-marker extraction (re.findall(r"\[Source \d+\]", response))

The regex scan is embedded as a character-level automaton run left to
right, matching the literal `"[Source "`, one or more digits, and a closing
bracket, emitting each non-overlapping match (`\d` is modelled as the ASCII
digits, which covers the `[Source N]` tags the engine itself renders). -/

/-- The literal head of the marker pattern. -/
def markerHead : List Char := ['[', 'S', 'o', 'u', 'r', 'c', 'e', ' ']

/-- Scanner state: matches already emitted, number of literal head
characters matched so far (`9` meaning "inside the digit run"), and the
digits collected in the current candidate. -/
structure MarkerScan where
  found : List String
  phase : Nat
  digits : List Char
deriving Repr

/-- One character step of the marker scan.  While matching the literal head
or the digit run, an unexpected `[` restarts a candidate match at that
bracket (the pattern head contains no internal `[`, so this is exactly
where the left-to-right regex scan would next succeed). -/
def markerStep (st : MarkerScan) (c : Char) : MarkerScan :=
  if st.phase = 9 then
    if c.isDigit then { st with digits := st.digits ++ [c] }
    else if c == ']' then
      { found := st.found ++ [String.mk (markerHead ++ st.digits ++ [']'])]
        phase := 0, digits := [] }
    else if c == '[' then { st with phase := 1, digits := [] }
    else { st with phase := 0, digits := [] }
  else if st.phase = 8 then
    if c.isDigit then { st with phase := 9, digits := [c] }
    else if c == '[' then { st with phase := 1, digits := [] }
    else { st with phase := 0, digits := [] }
  else
    if c == markerHead.getD st.phase ' ' then { st with phase := st.phase + 1 }
    else if c == '[' then { st with phase := 1, digits := [] }
    else { st with phase := 0, digits := [] }

/-- All `[Source N]` matches of a string, in order. -/
def findSourceMarkers (s : String) : List String :=
  (s.data.foldl markerStep { found := [], phase := 0, digits := [] }).found

/-! ### Grounding validation (RAGEngine._validate_source_grounding)

The hallucination-indicator heuristic (`_detect_hallucination_indicators`)
is kept abstract as a function parameter `detect`: none of the verified
properties depend on which indicator strings it produces, so every theorem
below quantifies over it. -/

/-- The dict returned by `_validate_source_grounding`. -/
structure GroundingValidation where
  groundingScore : ℚ
  totalSources : Nat
  referencedSources : Nat
  sourceReferences : List String
  hallucinationRisk : Bool
  hallucinationIndicators : List String
  isWellGrounded : Bool
deriving Repr

/-- Embedding of `RAGEngine._validate_source_grounding`: count the distinct
`[Source N]` markers of the response, divide by `max(total_sources, 1)`,
and attach the indicator heuristic's output. -/
def validateSourceGrounding (detect : String → List Doc → List String)
    (response : String) (docs : List Doc) : GroundingValidation :=
  let refs := findSourceMarkers response
  let totalSources := docs.length
  let referencedSources := refs.dedup.length
  let groundingScore : ℚ := (referencedSources : ℚ) / ((max totalSources 1 : Nat) : ℚ)
  let indicators := detect response docs
  { groundingScore := groundingScore
    totalSources := totalSources
    referencedSources := referencedSources
    sourceReferences := refs
    hallucinationRisk := decide (0 < indicators.length)
    hallucinationIndicators := indicators
    isWellGrounded := decide ((1 : ℚ) / 2 < groundingScore) && decide (indicators.length = 0) }

/-! ### Grounded response generation (RAGEngine.generate_grounded_response)

Wall-clock fields of the returned dicts (`generated_at`, `retrieved_at`)
are omitted; keys that are absent from a given dict shape are modelled as
`Option` fields (`fallbackUsed`) or as placeholder values that the pipeline
always overwrites before returning (the grounding fields, filled in by
`response_data.update(grounding_validation)`). -/

/-- One entry of the `sources` list assembled for the answer. -/
structure SourceDescriptor where
  id : String
  source : String
  category : String
  similarityScore : ℚ
  collection : String
deriving DecidableEq, Repr

/-- The per-document source descriptors, `doc.get("id", f"doc_{i}")` and the
metadata defaults of `rag_engine.py`. -/
def collectSources (docs : List Doc) : List SourceDescriptor :=
  docs.enum.map (fun p =>
    { id := p.2.id.getD ("doc_" ++ toString p.1)
      source := (mlookup p.2.metadata "source").getD "Unknown"
      category := (mlookup p.2.metadata "category").getD "General"
      similarityScore := p.2.similarityScore
      collection := (mlookup p.2.metadata "collection").getD "Unknown" })

/-- The response dict of the grounded-answer operation, covering the keys
shared by its three possible shapes (LLM-generated, template fallback,
static no-documents fallback). -/
structure RGAnswer where
  response : String
  sources : List SourceDescriptor
  contextUsed : String
  query : String
  responseType : String
  language : String
  numSources : Nat
  fallbackUsed : Option Bool
  groundingScore : ℚ
  hallucinationRisk : Bool
  hallucinationIndicators : List String
  isWellGrounded : Bool
deriving Repr

/-- A successful gateway result, with the fields of `LLMResponse` that the
grounder reads. -/
structure LLMResult where
  content : String
  provider : String
  model : String
  tokensUsed : Nat
deriving DecidableEq, Repr

/-- Template sentence for one document in `_generate_disease_response`. -/
def diseasePart (i : Nat) (d : Doc) : Option String :=
  if mlookup d.metadata "category" == some "disease_management" then
    some ("According to " ++ ((mlookup d.metadata "source").getD "agricultural sources")
      ++ " [Source " ++ toString (i + 1) ++ "], " ++ strTake d.content 200 ++ "...")
  else if strContains (strLower d.content) "disease"
      || strContains (strLower d.content) "pest" then
    some ("Based on " ++ ((mlookup d.metadata "source").getD "available information")
      ++ " [Source " ++ toString (i + 1) ++ "], " ++ strTake d.content 200 ++ "...")
  else none

/-- Template sentence for one document in `_generate_market_response`. -/
def marketPart (i : Nat) (d : Doc) : Option String :=
  if mlookup d.metadata "category" == some "market_intelligence" then
    some ("According to market data from "
      ++ ((mlookup d.metadata "source").getD "market sources")
      ++ " [Source " ++ toString (i + 1) ++ "], " ++ strTake d.content 200 ++ "...")
  else if ["price", "market", "mandi"].any
      (fun w => strContains (strLower d.content) w) then
    some ("Based on " ++ ((mlookup d.metadata "source").getD "available information")
      ++ " [Source " ++ toString (i + 1) ++ "], " ++ strTake d.content 200 ++ "...")
  else none

/-- Template sentence for one document in `_generate_scheme_response`. -/
def schemePart (i : Nat) (d : Doc) : Option String :=
  if mlookup d.metadata "category" == some "government_scheme" then
    some ("According to official information about "
      ++ ((mlookup d.metadata "scheme_name").getD "government scheme")
      ++ " [Source " ++ toString (i + 1) ++ "], " ++ strTake d.content 200 ++ "...")
  else if ["scheme", "subsidy", "government"].any
      (fun w => strContains (strLower d.content) w) then
    some ("Based on " ++ ((mlookup d.metadata "source").getD "government sources")
      ++ " [Source " ++ toString (i + 1) ++ "], " ++ strTake d.content 200 ++ "...")
  else none

/-- Template sentence for one document in `_generate_general_response`. -/
def generalPart (i : Nat) (d : Doc) : Option String :=
  some ("According to " ++ ((mlookup d.metadata "source").getD "agricultural sources")
    ++ " [Source " ++ toString (i + 1) ++ "], " ++ strTake d.content 200 ++ "...")

/-- Python `" ".join(parts)`. -/
def joinSpace : List String → String
  | [] => ""
  | [s] => s
  | s :: rest => s ++ " " ++ joinSpace rest

/-- Assemble one of the four per-intent template bodies: each document
contributes its sentence if it qualifies, with a default sentence when no
document qualifies. -/
def templateBody (part : Nat → Doc → Option String) (defaultText : String)
    (docs : List Doc) : String :=
  let parts := docs.enum.filterMap (fun p => part p.1 p.2)
  if parts.isEmpty then defaultText else joinSpace parts

/-- The query-intent dispatch of `_generate_simple_response_fallback`,
producing the deterministic template answer text from document snippets. -/
def simpleResponseText (query : String) (docs : List Doc) : String :=
  let ql := strLower query
  if ["disease", "pest", "problem", "symptom"].any (fun w => strContains ql w) then
    templateBody diseasePart
      "Based on the available agricultural knowledge, here's what I found relevant to your query."
      docs
  else if ["price", "market", "sell", "mandi"].any (fun w => strContains ql w) then
    templateBody marketPart
      "Based on the available market intelligence, here's what I found relevant to your query."
      docs
  else if ["scheme", "subsidy", "government", "benefit"].any (fun w => strContains ql w) then
    templateBody schemePart
      "Based on the available government scheme information, here's what I found relevant to your query."
      docs
  else
    templateBody generalPart
      "Based on the available agricultural knowledge, here's what I found relevant to your query."
      docs

/-- Embedding of `RAGEngine._generate_simple_response_fallback`: the
degraded answer assembled without any generation, tagged
`"fallback_used": True`.  The grounding fields are placeholders here; the
caller always overwrites them. -/
def generateSimpleResponseFallback (query : String) (docs : List Doc)
    (responseType language : String) : RGAnswer :=
  { response := simpleResponseText query docs
    sources := collectSources docs
    contextUsed := ""
    query := query
    responseType := responseType
    language := language
    numSources := docs.length
    fallbackUsed := some true
    groundingScore := 0
    hallucinationRisk := false
    hallucinationIndicators := []
    isWellGrounded := false }

/-- Embedding of `RAGEngine._generate_response_with_grounding`: a failing
gateway call is caught and answered by the template fallback; a successful
one is packaged with the collected sources.  The grounding fields are
placeholders that the caller overwrites. -/
def generateResponseWithGrounding (llmResult : Except GenError LLMResult)
    (query context : String) (docs : List Doc)
    (responseType language : String) : RGAnswer :=
  match llmResult with
  | .ok r =>
    { response := r.content
      sources := collectSources docs
      contextUsed := context
      query := query
      responseType := responseType
      language := language
      numSources := docs.length
      fallbackUsed := none
      groundingScore := 0
      hallucinationRisk := false
      hallucinationIndicators := []
      isWellGrounded := false }
  | .error _ => generateSimpleResponseFallback query docs responseType language

/-- Embedding of `RAGEngine._generate_fallback_response` for an empty
document list: the static per-language answer. -/
def generateFallbackResponse (query language : String) : RGAnswer :=
  { response :=
      if language == "hi" then
        "मेरे पास आपके प्रश्न के बारे में विशिष्ट जानकारी नहीं है। कृपया सटीक मार्गदर्शन के लिए स्थानीय कृषि विशेषज्ञों या विस्तार अधिकारियों से सलाह लें।"
      else
        "I don't have specific information about your query in my knowledge base. Please consult with local agricultural experts or extension officers for accurate guidance."
    sources := []
    contextUsed := ""
    query := query
    responseType := "fallback"
    language := language
    numSources := 0
    fallbackUsed := none
    groundingScore := 0
    hallucinationRisk := false
    hallucinationIndicators := []
    isWellGrounded := false }

/-- The `response_data.update(grounding_validation)` merge. -/
def applyGroundingValidation (detect : String → List Doc → List String)
    (a : RGAnswer) (docs : List Doc) : RGAnswer :=
  let v := validateSourceGrounding detect a.response docs
  { a with
    groundingScore := v.groundingScore
    hallucinationRisk := v.hallucinationRisk
    hallucinationIndicators := v.hallucinationIndicators
    isWellGrounded := v.isWellGrounded }

/-- Embedding of `RAGEngine.generate_grounded_response`.  The outcome of
the gateway call (`llm_service.generate_response`) is the `llmResult`
argument; every path produces an `RGAnswer` value, so the operation never
propagates a gateway error to its caller. -/
def generateGroundedResponse (detect : String → List Doc → List String)
    (llmResult : Except GenError LLMResult) (query : String) (docs : List Doc)
    (responseType language : String) : RGAnswer :=
  if docs.isEmpty then generateFallbackResponse query language
  else
    applyGroundingValidation detect
      (generateResponseWithGrounding llmResult query (prepareContext docs)
        docs responseType language)
      docs

/-! ### Document retrieval (RAGEngine.retrieve_documents)

The vector store together with `_format_search_results` is abstracted as a
function from collection name and `n_results` to either the formatted hit
list or a raised error; `datetime.now().isoformat()` is the explicit
`retrievedAt` argument. -/

/-- One formatted search hit (`_format_search_results` output). -/
structure Hit where
  id : String
  content : String
  metadata : List (String × String)
  similarityScore : ℚ
deriving DecidableEq, Repr

/-- The internal similarity threshold `self.min_similarity_threshold`. -/
def minSimilarityThreshold : ℚ := mkRat 3 10

/-- The default collection list of `retrieve_documents`. -/
def defaultCollections : List String :=
  ["agricultural_knowledge", "government_schemes", "market_intelligence",
   "crop_diseases"]

/-- The metadata annotation applied to every kept hit: origin collection,
retrieval query, and retrieval timestamp. -/
def annotateHit (collection query retrievedAt : String) (h : Hit) : Hit :=
  { h with
    metadata :=
      msetKey (msetKey (msetKey h.metadata "collection" collection)
        "retrieval_query" query) "retrieved_at" retrievedAt }

/-- The per-collection loop of `retrieve_documents`: a collection whose
query raises contributes nothing (the exception is logged and absorbed by
`continue`); a successful one contributes its hits filtered to
`similarity_score ≥ similarity_threshold` and annotated, in order. -/
def collectionResults (queryFn : String → Nat → Except String (List Hit))
    (query : String) (topK : Nat) (threshold : ℚ) (retrievedAt : String) :
    List String → List Hit
  | [] => []
  | c :: rest =>
    match queryFn c topK with
    | .error _ => collectionResults queryFn query topK threshold retrievedAt rest
    | .ok hits =>
      ((hits.filter (fun h => decide (threshold ≤ h.similarityScore))).map
          (annotateHit c query retrievedAt))
        ++ collectionResults queryFn query topK threshold retrievedAt rest

/-- Descending-score comparison used by
`all_results.sort(key=..., reverse=True)`. -/
def scoreGe (a b : Hit) : Prop := b.similarityScore ≤ a.similarityScore

instance : DecidableRel scoreGe := fun a b =>
  inferInstanceAs (Decidable (b.similarityScore ≤ a.similarityScore))

instance : IsTotal Hit scoreGe := ⟨fun a b => le_total b.similarityScore a.similarityScore⟩

instance : IsTrans Hit scoreGe := ⟨fun _ _ _ h1 h2 => le_trans h2 h1⟩

/-- Stable descending sort by similarity score.  Python's `list.sort` is a
stable sort, and all stable sorts of a list under the same total preorder
agree, so the insertion sort below computes exactly its result. -/
def sortByScoreDesc (l : List Hit) : List Hit := l.insertionSort scoreGe

/-- Embedding of `RAGEngine.retrieve_documents`: pool the per-collection
results, sort globally by descending score, and truncate to `top_k`. -/
def retrieveDocuments (queryFn : String → Nat → Except String (List Hit))
    (query : String) (collections : List String) (topK : Nat) (threshold : ℚ)
    (retrievedAt : String) : List Hit :=
  (sortByScoreDesc
      (collectionResults queryFn query topK threshold retrievedAt collections)).take
    topK

/-! ### Concrete fixtures for worked examples -/

/-- Example hit with similarity score 0.9. -/
def exHit09 : Hit :=
  { id := "d09", content := "rust control", metadata := [("source", "ICAR")]
    similarityScore := mkRat 9 10 }

/-- Example hit with similarity score 0.8. -/
def exHit08 : Hit :=
  { id := "d08", content := "sowing window", metadata := [("source", "KVK")]
    similarityScore := mkRat 8 10 }

/-- Example hit with similarity score 0.75. -/
def exHit075 : Hit :=
  { id := "d075", content := "soil testing", metadata := [("source", "SAU")]
    similarityScore := mkRat 3 4 }

/-- Example hit with similarity score 0.2. -/
def exHit02 : Hit :=
  { id := "d02", content := "unrelated", metadata := [("source", "misc")]
    similarityScore := mkRat 1 5 }

/-- Example store returning the four hits of the specification's worked
retrieval example for every collection. -/
def exQueryFn : String → Nat → Except String (List Hit) :=
  fun _ _ => .ok [exHit09, exHit08, exHit075, exHit02]

/-- Example store that raises on the collection `"bad"` and answers
normally elsewhere. -/
def exFailFn : String → Nat → Except String (List Hit) :=
  fun c _ => if c == "bad" then .error "boom" else .ok [exHit09]

/-- Example retrieved document for the grounding fixtures. -/
def exDoc : Doc :=
  { id := some "d1", content := "Wheat rust disease responds to mancozeb."
    metadata := [("source", "ICAR"), ("category", "disease_management")]
    similarityScore := mkRat 9 10 }

/-! ## Theorems for the verified claims -/

/-- C1: starting from a closed circuit with no recorded consecutive
failures, recording the 1st or 2nd consecutive failure leaves the state not
Open, and recording the 3rd makes it Open — the circuit opens exactly on
the 3rd consecutive failure. -/
theorem circuit_opens_exactly_on_third_failure (s : ProviderCircuit)
    (t₁ t₂ t₃ : Nat) (h0 : s.failures = 0) (hc : s.state = .closed) :
    (recordFailure t₁ s).state ≠ .opened ∧
    (recordFailure t₂ (recordFailure t₁ s)).state ≠ .opened ∧
    (recordFailure t₃ (recordFailure t₂ (recordFailure t₁ s))).state = .opened := by
  obtain ⟨f, lf, st⟩ := s
  simp only [ProviderCircuit.mk.injEq] at h0 hc
  subst h0
  subst hc
  refine ⟨by simp [recordFailure], by simp [recordFailure], by simp [recordFailure]⟩

/-- Witness for C1 at the initial circuit record. -/
theorem circuit_opens_exactly_on_third_failure_witness :
    (recordFailure 10 initCircuit).state ≠ .opened ∧
    (recordFailure 20 (recordFailure 10 initCircuit)).state ≠ .opened ∧
    (recordFailure 30 (recordFailure 20 (recordFailure 10 initCircuit))).state
      = .opened :=
  circuit_opens_exactly_on_third_failure initCircuit 10 20 30 rfl rfl

/-- C2: for a reachable open circuit whose five-minute cooldown has
elapsed, the breaker check transitions it to HalfOpen and lets the probe
through (answers false); completing that single probe changes the state
again — a successful probe closes the circuit with failure count 0 and no
last-failure timestamp, while a failed probe re-opens it with the
last-failure timestamp restarted at the probe's failure time. -/
theorem half_open_probe_behaviour (s : ProviderCircuit) (now t probeT : Nat)
    (hr : ReachableCircuit s) (hopen : s.state = .opened)
    (hlast : s.lastFailure = some t) (hcool : cooldownSeconds < now - t) :
    (isCircuitBreakerOpen now s).1 = false ∧
    (isCircuitBreakerOpen now s).2.state = .halfOpen ∧
    recordSuccess (isCircuitBreakerOpen now s).2 =
      { failures := 0, lastFailure := none, state := .closed } ∧
    (recordFailure probeT (isCircuitBreakerOpen now s).2).state = .opened ∧
    (recordFailure probeT (isCircuitBreakerOpen now s).2).lastFailure
      = some probeT := by
  have h3 : 3 ≤ s.failures :=
    reachable_notClosed_three_failures s hr (by simp [hopen])
  have hs2 : isCircuitBreakerOpen now s = (false, { s with state := .halfOpen }) := by
    simp [isCircuitBreakerOpen, hopen, hlast, hcool]
  have h31 : 3 ≤ s.failures + 1 := le_trans h3 (Nat.le_succ _)
  rw [hs2]
  exact ⟨rfl, rfl, rfl, by simp [recordFailure, h31], by simp [recordFailure]⟩

/-- Witness for C2: a circuit opened by three consecutive failures, checked
after the cooldown has elapsed. -/
theorem half_open_probe_behaviour_witness :
    (isCircuitBreakerOpen 1000
        (recordFailure 2 (recordFailure 1 (recordFailure 0 initCircuit)))).1
      = false ∧
    (isCircuitBreakerOpen 1000
        (recordFailure 2 (recordFailure 1 (recordFailure 0 initCircuit)))).2.state
      = .halfOpen ∧
    recordSuccess (isCircuitBreakerOpen 1000
        (recordFailure 2 (recordFailure 1 (recordFailure 0 initCircuit)))).2 =
      { failures := 0, lastFailure := none, state := .closed } ∧
    (recordFailure 77 (isCircuitBreakerOpen 1000
        (recordFailure 2 (recordFailure 1 (recordFailure 0 initCircuit)))).2).state
      = .opened ∧
    (recordFailure 77 (isCircuitBreakerOpen 1000
        (recordFailure 2 (recordFailure 1 (recordFailure 0 initCircuit)))).2).lastFailure
      = some 77 :=
  half_open_probe_behaviour _ 1000 2 77
    (ReachableCircuit.failure 2 (ReachableCircuit.failure 1
      (ReachableCircuit.failure 0 ReachableCircuit.init)))
    (by decide) (by decide) (by decide)

/-- C3 counterexample: with `maxRetries = 1` and a client that always
raises a transient timeout, the provider is attempted twice — the loop runs
`range(max_retries + 1)` iterations, so "at most maxRetries attempts" is
false. -/
theorem retry_attempt_count_counterexample :
    (generateWithRetry 1 1 (fun _ => .timeoutErr)).attempts = 2 ∧
    ¬(generateWithRetry 1 1 (fun _ => .timeoutErr)).attempts ≤ 1 := by
  constructor
  · rfl
  · decide

/-- The retry loop makes at most as many attempts as it has iterations
left. -/
theorem retryFrom_attempts_le (d : ℚ) (m : Nat) (o : Nat → AttemptOutcome) :
    ∀ r a, (retryFrom d m o a r).attempts ≤ r := by
  intro r
  induction r with
  | zero => intro a; simp [retryFrom]
  | succ r ih =>
    intro a
    cases ho : o a with
    | ok c => simp [retryFrom, ho]
    | timeoutErr =>
      rcases eq_or_ne a m with hm | hm
      · subst hm; simp [retryFrom, ho]
      · simp only [retryFrom, ho]
        rw [if_neg hm]
        exact Nat.succ_le_succ (ih (a + 1))
    | rateLimitErr =>
      rcases eq_or_ne a m with hm | hm
      · subst hm; simp [retryFrom, ho]
      · simp only [retryFrom, ho]
        rw [if_neg hm]
        exact Nat.succ_le_succ (ih (a + 1))
    | providerErr => simp [retryFrom, ho]

/-- Every delay inserted by the retry loop at attempt index `i` is
`retryDelay * 2 ^ i`. -/
theorem retryFrom_delays_formula (d : ℚ) (m : Nat) (o : Nat → AttemptOutcome) :
    ∀ r a, ∀ p ∈ (retryFrom d m o a r).delays, p.2 = d * 2 ^ p.1 := by
  intro r
  induction r with
  | zero => intro a p hp; simp [retryFrom] at hp
  | succ r ih =>
    intro a p hp
    cases ho : o a with
    | ok c => simp [retryFrom, ho] at hp
    | timeoutErr =>
      rcases eq_or_ne a m with hm | hm
      · subst hm; simp [retryFrom, ho] at hp
      · simp only [retryFrom, ho] at hp
        rw [if_neg hm] at hp
        rcases List.mem_cons.mp hp with hp | hp
        · subst hp; rfl
        · exact ih (a + 1) p hp
    | rateLimitErr =>
      rcases eq_or_ne a m with hm | hm
      · subst hm; simp [retryFrom, ho] at hp
      · simp only [retryFrom, ho] at hp
        rw [if_neg hm] at hp
        rcases List.mem_cons.mp hp with hp | hp
        · subst hp; rfl
        · exact ih (a + 1) p hp
    | providerErr => simp [retryFrom, ho] at hp

/-- A non-transient provider error at relative position `k` of the
remaining attempts ends the loop there: one failure recorded, no delay
after the error, `k + 1` attempts in total. -/
theorem retryFrom_provider_abort (d : ℚ) (m : Nat) (o : Nat → AttemptOutcome) :
    ∀ k a r, k < r → (∀ j, j < k → transientOutcome (o (a + j)) = true) →
      (∀ j, j < k → a + j ≠ m) → o (a + k) = .providerErr →
      retryFrom d m o a r =
        { result := .error .provider, attempts := k + 1
          delays := (List.range' a k).map (fun i => (i, d * 2 ^ i))
          failureRecorded := 1, successRecorded := 0 } := by
  intro k
  induction k with
  | zero =>
    intro a r hr _ _ hprov
    match r, hr with
    | r + 1, _ =>
      rw [Nat.add_zero] at hprov
      simp [retryFrom, hprov]
  | succ k ih =>
    intro a r hr htrans hne hprov
    match r, hr with
    | r + 1, hr =>
      have h0 : transientOutcome (o a) = true := by
        simpa using htrans 0 (Nat.succ_pos k)
      have ha : a ≠ m := by simpa using hne 0 (Nat.succ_pos k)
      have hrec := ih (a + 1) r (Nat.lt_of_succ_lt_succ hr)
        (fun j hj => by
          have := htrans (j + 1) (Nat.succ_lt_succ hj)
          simpa [Nat.add_assoc, Nat.add_comm 1 j] using this)
        (fun j hj => by
          have := hne (j + 1) (Nat.succ_lt_succ hj)
          simpa [Nat.add_assoc, Nat.add_comm 1 j] using this)
        (by simpa [Nat.add_assoc, Nat.add_comm 1 k] using hprov)
      cases ho : o a with
      | ok c => simp [ho, transientOutcome] at h0
      | providerErr => simp [ho, transientOutcome] at h0
      | timeoutErr =>
        simp only [retryFrom, ho, ha, if_neg ha, hrec]
        simp [List.range'_succ]
      | rateLimitErr =>
        simp only [retryFrom, ho, ha, if_neg ha, hrec]
        simp [List.range'_succ]

/-- C3 (amended): within one gateway call a provider is attempted at most
`maxRetries + 1` times (the loop is `range(max_retries + 1)`); every delay
inserted after a transient failure at 0-indexed attempt `i` equals
`baseDelay * 2 ^ i`; and a non-transient provider error at any reached
attempt `k` ends the call for that provider with no delay after it, no
further attempt, and exactly one recorded failure. -/
theorem retry_backoff_amended (d : ℚ) (m : Nat) :
    (∀ o : Nat → AttemptOutcome, (generateWithRetry d m o).attempts ≤ m + 1) ∧
    (∀ o : Nat → AttemptOutcome,
      ∀ p ∈ (generateWithRetry d m o).delays, p.2 = d * 2 ^ p.1) ∧
    (∀ (o : Nat → AttemptOutcome) (k : Nat), k ≤ m →
      (∀ j, j < k → transientOutcome (o j) = true) → o k = .providerErr →
      generateWithRetry d m o =
        { result := .error .provider, attempts := k + 1
          delays := (List.range k).map (fun i => (i, d * 2 ^ i))
          failureRecorded := 1, successRecorded := 0 }) := by
  refine ⟨fun o => retryFrom_attempts_le d m o (m + 1) 0,
    fun o => retryFrom_delays_formula d m o (m + 1) 0,
    fun o k hk htrans hprov => ?_⟩
  have := retryFrom_provider_abort d m o k 0 (m + 1)
    (Nat.lt_succ_of_le hk)
    (fun j hj => by simpa using htrans j hj)
    (fun j hj => by
      have : j < m := lt_of_lt_of_le hj hk
      omega)
    (by simpa using hprov)
  simpa [generateWithRetry, List.range_eq_range'] using this

/-- Witness for C3 (amended): `maxRetries = 2`, one transient timeout, then
a provider error on attempt 1 — the call stops after 2 attempts with the
single backoff delay `1 * 2 ^ 0`. -/
theorem retry_backoff_amended_witness :
    generateWithRetry 1 2 (fun n => if n = 0 then .timeoutErr else .providerErr) =
      { result := .error .provider, attempts := 1 + 1
        delays := (List.range 1).map (fun i => (i, (1 : ℚ) * 2 ^ i))
        failureRecorded := 1, successRecorded := 0 } :=
  (retry_backoff_amended 1 2).2.2 _ 1 (by decide) (by decide) (by decide)

/-- C10: one `_generate_with_retry` call records at most one failure for
its provider, regardless of how many individual attempts failed, and each
recorded failure increments the consecutive-failure counter by exactly 1 —
so the counter counts failed gateway calls, not failed attempts. -/
theorem failure_recorded_at_most_once (d : ℚ) (m : Nat)
    (o : Nat → AttemptOutcome) :
    (generateWithRetry d m o).failureRecorded ≤ 1 ∧
    ∀ (t : Nat) (s : ProviderCircuit),
      (recordFailure t s).failures = s.failures + 1 := by
  constructor
  · have : ∀ r a, (retryFrom d m o a r).failureRecorded ≤ 1 := by
      intro r
      induction r with
      | zero => intro a; simp [retryFrom]
      | succ r ih =>
        intro a
        cases ho : o a with
        | ok c => simp [retryFrom, ho]
        | timeoutErr =>
          rcases eq_or_ne a m with hm | hm
          · subst hm; simp [retryFrom, ho]
          · simp only [retryFrom, ho]
            rw [if_neg hm]
            exact ih (a + 1)
        | rateLimitErr =>
          rcases eq_or_ne a m with hm | hm
          · subst hm; simp [retryFrom, ho]
          · simp only [retryFrom, ho]
            rw [if_neg hm]
            exact ih (a + 1)
        | providerErr => simp [retryFrom, ho]
    exact this (m + 1) 0
  · intro t s; rfl

/-- C4 counterexample: with both providers registered, preferred provider
`"openai"` whose circuit is Open, and configuration
`primary = "openai"`, `fallback = "anthropic"`, the code's candidate order
is still `["openai"]` while the claim demands the de-duplicated
`[primary, fallback]` list; consequently no provider at all is attempted.
The circuit-breaker state plays no role in the code's ordering decision. -/
theorem preferred_provider_ordering_counterexample :
    providerOrder ["openai", "anthropic"] (some "openai")
        { primaryProvider := "openai", fallbackProvider := "anthropic" }
      = ["openai"] ∧
    providerOrderSpec ["openai", "anthropic"] (fun p => p == "openai")
        (some "openai")
        { primaryProvider := "openai", fallbackProvider := "anthropic" }
      = ["openai", "anthropic"] ∧
    providerOrder ["openai", "anthropic"] (some "openai")
        { primaryProvider := "openai", fallbackProvider := "anthropic" }
      ≠ providerOrderSpec ["openai", "anthropic"] (fun p => p == "openai")
        (some "openai")
        { primaryProvider := "openai", fallbackProvider := "anthropic" } ∧
    attemptedCandidates ["openai", "anthropic"] (fun p => p == "openai")
        (some "openai")
        { primaryProvider := "openai", fallbackProvider := "anthropic" }
      = [] := by
  refine ⟨rfl, rfl, ?_, rfl⟩
  decide

/-- C4 (amended): a supplied, non-empty, registered preferred provider is
used exclusively regardless of its circuit state — the candidate order is
the singleton `[p]`, so no other provider is ever attempted, and `p` itself
is attempted exactly when its circuit is not Open (when it is Open, nothing
is attempted and the call fails).  Only when no usable preferred provider
is supplied is the de-duplicated `[primary, fallback]` list used. -/
theorem preferred_provider_exclusive_amended (clients : List String)
    (p : String) (cfg : GatewayConfig) (circuitOpen : String → Bool)
    (hp : p ≠ "") (hreg : clients.contains p = true) :
    providerOrder clients (some p) cfg = [p] ∧
    attemptedCandidates clients circuitOpen (some p) cfg ⊆ [p] ∧
    (circuitOpen p = false →
      attemptedCandidates clients circuitOpen (some p) cfg = [p]) ∧
    providerOrder clients none cfg
      = dedupKeepFirst [cfg.primaryProvider, cfg.fallbackProvider] := by
  have hmem : p ∈ clients := by simpa using hreg
  have horder : providerOrder clients (some p) cfg = [p] := by
    simp [providerOrder, hp, hmem]
  refine ⟨horder, ?_, ?_, rfl⟩
  · rw [attemptedCandidates, horder]
    exact fun x hx => List.mem_of_mem_filter hx
  · intro hnotOpen
    rw [attemptedCandidates, horder]
    simp [List.filter, hmem, hnotOpen]

/-- Witness for C4 (amended) at the counterexample's configuration with the
circuit closed. -/
theorem preferred_provider_exclusive_amended_witness :
    providerOrder ["openai", "anthropic"] (some "openai")
        { primaryProvider := "openai", fallbackProvider := "anthropic" }
      = ["openai"] ∧
    attemptedCandidates ["openai", "anthropic"] (fun _ => false)
        (some "openai")
        { primaryProvider := "openai", fallbackProvider := "anthropic" }
      ⊆ ["openai"] ∧
    ((fun _ : String => false) "openai" = false →
      attemptedCandidates ["openai", "anthropic"] (fun _ => false)
          (some "openai")
          { primaryProvider := "openai", fallbackProvider := "anthropic" }
        = ["openai"]) ∧
    providerOrder ["openai", "anthropic"] none
        { primaryProvider := "openai", fallbackProvider := "anthropic" }
      = dedupKeepFirst ["openai", "anthropic"] :=
  preferred_provider_exclusive_amended ["openai", "anthropic"] "openai"
    { primaryProvider := "openai", fallbackProvider := "anthropic" }
    (fun _ => false) (by decide) (by decide)

/-- C5: when the gateway call fails with any error, the grounded-answer
operation still returns an answer value — the deterministic template
assembled from document snippets, tagged `fallback_used = True` — instead
of propagating the error.  The operation is a total function into
`RGAnswer` in this embedding, which is the never-raises guarantee; only the
gateway-level `generate` is modelled as `Except`-valued. -/
theorem grounded_response_absorbs_gateway_failure
    (detect : String → List Doc → List String) (e : GenError) (q : String)
    (docs : List Doc) (rt lang : String) (h : docs ≠ []) :
    (generateGroundedResponse detect (.error e) q docs rt lang).fallbackUsed
      = some true ∧
    (generateGroundedResponse detect (.error e) q docs rt lang).response
      = simpleResponseText q docs := by
  have hne : docs.isEmpty = false := by
    cases docs with
    | nil => exact absurd rfl h
    | cons d rest => rfl
  simp [generateGroundedResponse, hne, applyGroundingValidation,
    generateResponseWithGrounding, generateSimpleResponseFallback]

/-- Witness for C5 at a one-document list and a failing gateway. -/
theorem grounded_response_absorbs_gateway_failure_witness :
    (generateGroundedResponse (fun _ _ => []) (.error .allFailed)
        "my crop has a disease" [exDoc] "comprehensive" "en").fallbackUsed
      = some true ∧
    (generateGroundedResponse (fun _ _ => []) (.error .allFailed)
        "my crop has a disease" [exDoc] "comprehensive" "en").response
      = simpleResponseText "my crop has a disease" [exDoc] :=
  grounded_response_absorbs_gateway_failure (fun _ _ => []) .allFailed
    "my crop has a disease" [exDoc] "comprehensive" "en" (by simp)

/-- Hits pooled by the per-collection loop all meet the similarity
threshold. -/
theorem mem_collectionResults_score
    (queryFn : String → Nat → Except String (List Hit)) (q : String)
    (tk : Nat) (th : ℚ) (ra : String) :
    ∀ cols h, h ∈ collectionResults queryFn q tk th ra cols →
      th ≤ h.similarityScore := by
  intro cols
  induction cols with
  | nil => intro h hh; simp [collectionResults] at hh
  | cons c rest ih =>
    intro h hh
    cases hq : queryFn c tk with
    | error e =>
      simp only [collectionResults, hq] at hh
      exact ih h hh
    | ok hits =>
      simp only [collectionResults, hq, List.mem_append] at hh
      rcases hh with hh | hh
      · obtain ⟨h₀, hh₀, rfl⟩ := List.mem_map.mp hh
        have hf := List.of_mem_filter hh₀
        simpa [annotateHit] using of_decide_eq_true hf
      · exact ih h hh

/-- C6: every retrieval result contains only hits whose score meets the
threshold, is sorted by descending similarity score, and has at most `topK`
elements; and on the specification's worked example (scores 0.9, 0.8, 0.75,
0.2 with threshold 0.3 and topK 3) the result is exactly the three
high-scoring documents in descending order, the 0.2-scored document never
appearing. -/
theorem retrieval_filter_sort_truncate
    (queryFn : String → Nat → Except String (List Hit)) (q : String)
    (cols : List String) (tk : Nat) (th : ℚ) (ra : String) :
    (∀ h ∈ retrieveDocuments queryFn q cols tk th ra,
      th ≤ h.similarityScore) ∧
    List.Sorted scoreGe (retrieveDocuments queryFn q cols tk th ra) ∧
    (retrieveDocuments queryFn q cols tk th ra).length ≤ tk ∧
    (retrieveDocuments exQueryFn "query" ["agricultural_knowledge"] 3
        (mkRat 3 10) "t0"
      = [annotateHit "agricultural_knowledge" "query" "t0" exHit09,
         annotateHit "agricultural_knowledge" "query" "t0" exHit08,
         annotateHit "agricultural_knowledge" "query" "t0" exHit075] ∧
      ∀ h ∈ retrieveDocuments exQueryFn "query" ["agricultural_knowledge"] 3
          (mkRat 3 10) "t0",
        h.similarityScore ≠ exHit02.similarityScore) := by
  refine ⟨?_, ?_, ?_, by decide, by decide⟩
  · intro h hh
    rw [retrieveDocuments] at hh
    have hh1 : h ∈ sortByScoreDesc (collectionResults queryFn q tk th ra cols) :=
      List.mem_of_mem_take hh
    have hh2 : h ∈ collectionResults queryFn q tk th ra cols := by
      rw [sortByScoreDesc] at hh1
      exact (List.perm_insertionSort scoreGe _).mem_iff.mp hh1
    exact mem_collectionResults_score queryFn q tk th ra cols h hh2
  · have hs : List.Sorted scoreGe
        (sortByScoreDesc (collectionResults queryFn q tk th ra cols)) :=
      List.sorted_insertionSort scoreGe _
    exact List.Pairwise.sublist (List.take_sublist _ _) hs
  · rw [retrieveDocuments]
    exact List.length_take_le _ _

/-- Witness for C6 at the worked example. -/
theorem retrieval_filter_sort_truncate_witness :
    (∀ h ∈ retrieveDocuments exQueryFn "query" ["agricultural_knowledge"] 3
        (mkRat 3 10) "t0",
      mkRat 3 10 ≤ h.similarityScore) ∧
    List.Sorted scoreGe (retrieveDocuments exQueryFn "query"
      ["agricultural_knowledge"] 3 (mkRat 3 10) "t0") ∧
    (retrieveDocuments exQueryFn "query" ["agricultural_knowledge"] 3
        (mkRat 3 10) "t0").length ≤ 3 ∧
    (retrieveDocuments exQueryFn "query" ["agricultural_knowledge"] 3
        (mkRat 3 10) "t0"
      = [annotateHit "agricultural_knowledge" "query" "t0" exHit09,
         annotateHit "agricultural_knowledge" "query" "t0" exHit08,
         annotateHit "agricultural_knowledge" "query" "t0" exHit075] ∧
      ∀ h ∈ retrieveDocuments exQueryFn "query" ["agricultural_knowledge"] 3
          (mkRat 3 10) "t0",
        h.similarityScore ≠ exHit02.similarityScore) :=
  retrieval_filter_sort_truncate exQueryFn "query" ["agricultural_knowledge"]
    3 (mkRat 3 10) "t0"

/-- A collection whose query raises contributes nothing; the pooled results
are those of the remaining collections. -/
theorem collectionResults_error_skip
    (queryFn : String → Nat → Except String (List Hit)) (q : String)
    (tk : Nat) (th : ℚ) (ra c : String) (e : String)
    (hfail : queryFn c tk = .error e) :
    ∀ cols₁ cols₂ : List String,
      collectionResults queryFn q tk th ra (cols₁ ++ c :: cols₂)
        = collectionResults queryFn q tk th ra (cols₁ ++ cols₂) := by
  intro cols₁
  induction cols₁ with
  | nil =>
    intro cols₂
    simp only [List.nil_append, collectionResults, hfail]
  | cons d rest ih =>
    intro cols₂
    simp only [List.cons_append, collectionResults]
    cases hq : queryFn d tk with
    | error e₀ => exact ih cols₂
    | ok hits =>
      exact congrArg
        (List.map (annotateHit d q ra)
          (List.filter (fun h => decide (th ≤ h.similarityScore)) hits) ++ ·)
        (ih cols₂)

/-- C7: a failure raised while querying one collection never fails the
overall retrieval — that collection's results are omitted and the remaining
collections' results are returned exactly as if the failing collection were
absent. -/
theorem retrieval_tolerates_collection_failure
    (queryFn : String → Nat → Except String (List Hit)) (q : String)
    (cols₁ cols₂ : List String) (c : String) (tk : Nat) (th : ℚ)
    (ra : String) (e : String) (hfail : queryFn c tk = .error e) :
    retrieveDocuments queryFn q (cols₁ ++ c :: cols₂) tk th ra
      = retrieveDocuments queryFn q (cols₁ ++ cols₂) tk th ra := by
  rw [retrieveDocuments, retrieveDocuments,
    collectionResults_error_skip queryFn q tk th ra c e hfail cols₁ cols₂]

/-- Witness for C7: the collection `"bad"` raises and is skipped. -/
theorem retrieval_tolerates_collection_failure_witness :
    retrieveDocuments exFailFn "q" (["a"] ++ "bad" :: ["b"]) 5 (mkRat 3 10) "t0"
      = retrieveDocuments exFailFn "q" (["a"] ++ ["b"]) 5 (mkRat 3 10) "t0" :=
  retrieval_tolerates_collection_failure exFailFn "q" ["a"] ["b"] "bad" 5
    (mkRat 3 10) "t0" "boom" rfl

/-- Joined context accumulates the accounted lengths, so the loop invariant
bounds the final string. -/
theorem prepareContextParts_length (budget : Nat) :
    ∀ (l : List (Nat × Doc)) (cur : Nat), cur ≤ budget →
      cur + (joinParts (prepareContextParts budget l cur)).length ≤ budget := by
  intro l
  induction l with
  | nil =>
    intro cur h
    simpa [prepareContextParts, joinParts] using h
  | cons hd tl ih =>
    intro cur h
    obtain ⟨i, d⟩ := hd
    by_cases hb : budget < cur + (docContext i d).length
    · simpa [prepareContextParts, hb, joinParts] using h
    · push_neg at hb
      have hrec := ih (cur + (docContext i d).length) hb
      simp only [prepareContextParts, if_neg (not_lt.mpr hb), joinParts,
        String.length_append] at hrec ⊢
      omega

/-- The rendered parts are exactly the renderings of a leading segment of
the enumerated document list. -/
theorem prepareContextParts_take (budget : Nat) :
    ∀ (l : List (Nat × Doc)) (cur : Nat), ∃ k,
      prepareContextParts budget l cur
        = (l.take k).map (fun p => docContext p.1 p.2) := by
  intro l
  induction l with
  | nil => exact fun _ => ⟨0, rfl⟩
  | cons hd tl ih =>
    intro cur
    obtain ⟨i, d⟩ := hd
    by_cases hb : budget < cur + (docContext i d).length
    · exact ⟨0, by simp [prepareContextParts, hb]⟩
    · obtain ⟨k, hk⟩ := ih (cur + (docContext i d).length)
      exact ⟨k + 1, by simp [prepareContextParts, hb, hk]⟩

/-- C8: the built context never exceeds `maxContextLength` (4000)
characters, and it is the in-order rendering of a leading segment of the
document list — truncation only drops a suffix, never reorders. -/
theorem context_within_budget_and_rank_order (docs : List Doc) :
    (prepareContext docs).length ≤ maxContextLength ∧
    ∃ k, prepareContext docs
      = joinParts ((docs.enum.take k).map (fun p => docContext p.1 p.2)) := by
  constructor
  · simpa [prepareContext] using
      prepareContextParts_length maxContextLength docs.enum 0 (Nat.zero_le _)
  · obtain ⟨k, hk⟩ := prepareContextParts_take maxContextLength docs.enum 0
    exact ⟨k, by rw [prepareContext, hk]⟩

/-- The grounding score computed by `_validate_source_grounding`, written
out. -/
theorem validateSourceGrounding_groundingScore
    (detect : String → List Doc → List String) (response : String)
    (docs : List Doc) :
    (validateSourceGrounding detect response docs).groundingScore
      = ((findSourceMarkers response).dedup.length : ℚ)
        / ((max docs.length 1 : Nat) : ℚ) := rfl

/-- The distinct-marker count computed by `_validate_source_grounding`,
written out. -/
theorem validateSourceGrounding_referencedSources
    (detect : String → List Doc → List String) (response : String)
    (docs : List Doc) :
    (validateSourceGrounding detect response docs).referencedSources
      = (findSourceMarkers response).dedup.length := rfl

/-- C9 counterexample: an answer citing `[Source 1]` and `[Source 2]`
against an empty document list yields grounding score `2/max(0,1) = 2`,
outside `[0,1]` — the computed score is not bounded by 1 for every answer
text and document list. -/
theorem grounding_score_above_one_counterexample :
    (validateSourceGrounding (fun _ _ => []) "[Source 1] [Source 2]"
        []).groundingScore = 2 ∧
    ¬(validateSourceGrounding (fun _ _ => []) "[Source 1] [Source 2]"
        []).groundingScore ≤ 1 := by
  have h : (findSourceMarkers "[Source 1] [Source 2]").dedup.length = 2 := by
    decide
  rw [validateSourceGrounding_groundingScore, h]
  norm_num

/-- C9 (amended): the grounding score is always nonnegative, and it lies in
`[0, 1]` exactly when the number of distinct `[Source N]` markers in the
answer does not exceed `max(number of documents, 1)`; an answer citing more
distinct markers than there are documents drives the score above 1. -/
theorem grounding_score_range_amended
    (detect : String → List Doc → List String) (response : String)
    (docs : List Doc) :
    0 ≤ (validateSourceGrounding detect response docs).groundingScore ∧
    ((validateSourceGrounding detect response docs).groundingScore ≤ 1 ↔
      (validateSourceGrounding detect response docs).referencedSources
        ≤ max docs.length 1) := by
  rw [validateSourceGrounding_groundingScore,
    validateSourceGrounding_referencedSources]
  have hpos : (0 : ℚ) < ((max docs.length 1 : Nat) : ℚ) := by
    have h1 : (1 : Nat) ≤ max docs.length 1 := le_max_right _ _
    exact_mod_cast Nat.lt_of_lt_of_le Nat.zero_lt_one h1
  constructor
  · exact div_nonneg (Nat.cast_nonneg _) (le_of_lt hpos)
  · rw [div_le_one hpos]
    exact_mod_cast Iff.rfl

end AgriCivic
